import Mathlib

/-!
Verification of the Solang LIR / SSA-IR printing layer.

The development shallowly embeds the data model and the printing code of
the repository slice under review:

* `src/lir/lir_type.rs` — the low-level type system (`Type`, `StructType`,
  `PhiInput`) and the `Display` implementations for `Type` and `StructType`;
* `src/ssa_ir/printer/expr_printer.rs` — `Printer::print_expr`;
* `src/tests/ssa_ir_tests/insn_to_string.rs` — the instruction printing
  tests, which pin the exact text of the instruction printer.

The expression type, the operand type, the instruction type and the
instruction printer itself are not part of the examined sources; they are
modelled from the specification (sections 3, 4.2, 4.3 and 6) and from the
exact strings asserted by the printing tests.  Such definitions carry a
doc comment starting with `Modelled from the spec:`.

Rust `write!` chains are embedded as pure string concatenation; a Rust
panic is embedded as `Option.none`.
-/

/-- Array dimension, from `ast::ArrayLength` (`Fixed(BigInt)`, `Dynamic`,
`AnyFixed`); the fixed length is a `BigInt`, embedded as `Int`. -/
inductive ArrayLength where
  | fixed (n : Int)
  | dynamic
  | anyFixed

mutual

/-- `StructType` from `src/lir/lir_type.rs`; keeps a `Vector` constructor as
the lowered representation of strings and dynamic bytes. -/
inductive StructType where
  | userDefined (i : Nat)
  | solAccountInfo
  | solAccountMeta
  | solParameters
  | externalFunction
  | vector (elem : Ty)

/-- The LIR type `Type` from `src/lir/lir_type.rs` (named `Ty` here because
`Type` is reserved in Lean).  Widths are `u16` (`Int`, `Uint`) and `u8`
(`Bytes`) in the source, embedded as `Nat`; printing never overflows them. -/
inductive Ty where
  | bool
  | int (width : Nat)
  | uint (width : Nat)
  | bytes (width : Nat)
  | ptr (ty : Ty)
  | storagePtr (immutable : Bool) (ty : Ty)
  | function (params : List Ty) (returns : List Ty)
  | mapping (keyTy : Ty) (valueTy : Ty)
  | array (elem : Ty) (dims : List ArrayLength)
  | struct (tag : StructType)
  | slice (ty : Ty)

end

/-- One array dimension as printed by the `Type::Array` arm:
`[<n>]`, `[]` or `[?]`. -/
def ArrayLength.display : ArrayLength → String
  | .fixed n => "[" ++ toString n ++ "]"
  | .dynamic => "[]"
  | .anyFixed => "[?]"

mutual

/-- `impl fmt::Display for Type` from `src/lir/lir_type.rs`, line by line. -/
def Ty.display : Ty → String
  | .bool => "bool"
  | .int w => "int" ++ toString w
  | .uint w => "uint" ++ toString w
  | .bytes w => "bytes" ++ toString w
  | .ptr t => "ptr<" ++ t.display ++ ">"
  | .storagePtr immutable t =>
      if immutable then "const_storage_ptr<" ++ t.display ++ ">"
      else "storage_ptr<" ++ t.display ++ ">"
  | .array t dims => t.display ++ String.join (dims.map ArrayLength.display)
  | .slice t => "slice<" ++ t.display ++ ">"
  | .struct tag => "struct." ++ tag.display
  | .function ps rs =>
      "fn(" ++ Ty.displayList ps 0 ++ ")" ++
        (if rs.isEmpty then " -> ()" else " -> (" ++ Ty.displayList rs 0 ++ ")")
  | .mapping k v => "mapping<" ++ k.display ++ " -> " ++ v.display ++ ">"

/-- The comma-separated loop used by the `Function` arm of the Rust
`Display` impl: the separator is written before every element whose
index is nonzero. -/
def Ty.displayList : List Ty → Nat → String
  | [], _ => ""
  | t :: ts, i => (if i = 0 then "" else ", ") ++ t.display ++ Ty.displayList ts (i + 1)

/-- `impl fmt::Display for StructType` from `src/lir/lir_type.rs`. -/
def StructType.display : StructType → String
  | .userDefined i => toString i
  | .solAccountInfo => "SolAccountInfo"
  | .solAccountMeta => "SolAccountMeta"
  | .externalFunction => "ExternalFunction"
  | .solParameters => "SolParameters"
  | .vector t => "vector<" ++ t.display ++ ">"

end

example : Ty.display (.ptr (.struct (.vector (.bytes 1)))) = "ptr<struct.vector<bytes1>>" := by rfl

example :
    Ty.display (.function [.uint 8, .bool] []) = "fn(uint8, bool) -> ()" := by rfl

example :
    Ty.display (.array (.uint 8) [.fixed 2, .dynamic, .anyFixed]) = "uint8[2][][?]" := by rfl

/-- Suffix part of a comma-separated rendering: every element is preceded
by the separator. -/
def tailJoin (sep : String) : List String → String
  | [] => ""
  | s :: ss => sep ++ s ++ tailJoin sep ss

/-- Separator-interleaved join, the shape named by the specification
(`P1, P2` style lists). -/
def sepBy (sep : String) : List String → String
  | [] => ""
  | s :: ss => s ++ tailJoin sep ss

/-- The enumerate-and-test loop idiom of the Rust printers: the separator is
written before every element whose index is nonzero. -/
def sepLoop (sep : String) : List String → Nat → String
  | [], _ => ""
  | s :: ss, i => (if i = 0 then "" else sep) ++ s ++ sepLoop sep ss (i + 1)

theorem sepLoop_succ (sep : String) (l : List String) (i : Nat) :
    sepLoop sep l (i + 1) = tailJoin sep l := by
  induction l generalizing i with
  | nil => rfl
  | cons s ss ih => simp [sepLoop, tailJoin, ih]

theorem sepLoop_zero (sep : String) (l : List String) :
    sepLoop sep l 0 = sepBy sep l := by
  cases l with
  | nil => rfl
  | cons s ss => simp [sepLoop, sepBy, sepLoop_succ, String.empty_append]

theorem Ty.displayList_eq_sepLoop (l : List Ty) (i : Nat) :
    Ty.displayList l i = sepLoop ", " (l.map Ty.display) i := by
  induction l generalizing i with
  | nil => rfl
  | cons t ts ih => simp [Ty.displayList, sepLoop, ih]

theorem Ty.displayList_eq_sepBy (l : List Ty) :
    Ty.displayList l 0 = sepBy ", " (l.map Ty.display) := by
  rw [Ty.displayList_eq_sepLoop, sepLoop_zero]

/-- Modelled from the spec: the `Operand` type (a variable identity or a
literal constant; `expressions.rs` is not in the examined sources) and its
rendering, pinned by the printing tests: a variable prints as a percent
sign and its identity, a number literal as its type and parenthesised
value, e.g. `uint8(1)`. -/
inductive Operand where
  | id (id : Nat)
  | numberLiteral (ty : Ty) (value : Int)

/-- Modelled from the spec: operand rendering (`%<id>`, `<ty>(<value>)`). -/
def Operand.display : Operand → String
  | .id i => "%" ++ toString i
  | .numberLiteral ty v => ty.display ++ "(" ++ toString v ++ ")"

/-- Modelled from the spec: the binary operator set carries an overflowing
tag; only multiply is pinned by the repository tests, rendering `(of)*`
when overflowing and `*` otherwise. -/
inductive BinaryOperator where
  | mul (overflowing : Bool)

/-- Modelled from the spec: operator rendering, checked multiply distinct
from the plain one. -/
def BinaryOperator.display : BinaryOperator → String
  | .mul true => "(of)*"
  | .mul false => "*"

/-- Modelled from the spec: unary operators; the exact symbols are not
pinned by the examined sources, only totality of the rendering matters. -/
inductive UnaryOperator where
  | not
  | neg (overflowing : Bool)
  | bitNot

/-- Modelled from the spec: unary operator rendering. -/
def UnaryOperator.display : UnaryOperator → String
  | .not => "!"
  | .neg true => "(of)-"
  | .neg false => "-"
  | .bitNot => "~"

/-- Modelled from the spec: display-format specifier for `FormatString`
arguments (default, binary, hex), printed as the empty string, `:b`, `:x`. -/
inductive FormatSpec where
  | default
  | binary
  | hex

/-- Modelled from the spec: format specifier rendering. -/
def FormatSpec.display : FormatSpec → String
  | .default => ""
  | .binary => ":b"
  | .hex => ":x"

/-- Modelled from the spec: a string argument is either a compile-time byte
constant or a runtime operand. -/
inductive StringLocation where
  | compileTime (s : List (Fin 256))
  | runTime (op : Operand)

/-- The Rust debug rendering of a byte vector: `[97, 98, 99]`. -/
def rustDebugBytes (bs : List (Fin 256)) : String :=
  "[" ++ sepBy ", " (bs.map fun b => toString b.val) ++ "]"

/-- String-location rendering as done inline by `print_expr`: a quoted
debug list for a compile-time constant, the operand otherwise. -/
def StringLocation.display : StringLocation → String
  | .compileTime s => "\"" ++ rustDebugBytes s ++ "\""
  | .runTime op => op.display

/-- A lowercase hexadecimal digit. -/
def hexDigit (n : Nat) : Char :=
  if n < 10 then Char.ofNat (48 + n) else Char.ofNat (87 + n)

/-- A byte as two lowercase hexadecimal digits, the Rust `{:02x}` format. -/
def hex2 (b : Fin 256) : String :=
  String.mk [hexDigit (b.val / 16), hexDigit (b.val % 16)]

/-- Modelled from the spec: the expression algebra of section 4.2
(`expr.rs` is not in the examined sources); the constructor shapes are
exactly the patterns matched by `Printer::print_expr` in
`src/ssa_ir/printer/expr_printer.rs`. -/
inductive Expr where
  | binaryExpr (operator : BinaryOperator) (left : Operand) (right : Operand)
  | unaryExpr (operator : UnaryOperator) (right : Operand)
  | id (id : Nat)
  | arrayLiteral (ty : Ty) (values : List Operand)
  | constArrayLiteral (ty : Ty) (values : List Operand)
  | bytesLiteral (ty : Ty) (value : List (Fin 256))
  | structLiteral (values : List Operand)
  | cast (operand : Operand) (toTy : Ty)
  | bytesCast (operand : Operand) (toTy : Ty)
  | signExt (operand : Operand) (toTy : Ty)
  | zeroExt (operand : Operand) (toTy : Ty)
  | trunc (operand : Operand) (toTy : Ty)
  | allocDynamicBytes (ty : Ty) (size : Operand) (initializer : Option (List (Fin 256)))
  | getRef (operand : Operand)
  | load (operand : Operand)
  | structMember (operand : Operand) (member : Nat)
  | subscript (arr : Operand) (index : Operand)
  | advancePointer (pointer : Operand) (bytesOffset : Operand)
  | functionArg (argNo : Nat)
  | formatString (args : List (FormatSpec × Operand))
  | internalFunctionCfg (cfgNo : Nat)
  | keccak256 (args : List Operand)
  | stringCompare (left : StringLocation) (right : StringLocation)
  | stringConcat (left : StringLocation) (right : StringLocation)
  | storageArrayLength (array : Operand)
  | returnData
  | numberLiteral (ty : Ty) (value : Int)
  | boolLiteral (value : Bool)

/-- Modelled from the spec: the variable table maps an integer identity to
its type and optional debug name (`vartable.rs` is not in the examined
sources); `print_expr` never reads it. -/
structure Vartable where
  vars : List (Nat × Ty × Option String)
  nextId : Nat

/-- The `Printer` struct of the printing module; it holds the variable
table, as in the Rust source. -/
structure Printer where
  vartable : Vartable

/-- `Printer::print_expr` from `src/ssa_ir/printer/expr_printer.rs`, arm by
arm.  The `Write` sink becomes a returned string; the catch-all panic arm
(reached by `AllocDynamicBytes` whose type is not `Ptr`) becomes `none`.
The printer state is unread, as in the source: `print_expr` consults its
operands, never the variable table. -/
def Printer.printExpr : Printer → Expr → Option String
  | _, .binaryExpr op l r => some (l.display ++ " " ++ op.display ++ " " ++ r.display)
  | _, .unaryExpr op r => some (op.display ++ r.display)
  | _, .id i => some ("%" ++ toString i)
  | _, .arrayLiteral ty values =>
      some (ty.display ++ " [" ++ sepLoop ", " (values.map Operand.display) 0 ++ "]")
  | _, .constArrayLiteral ty values =>
      some ("const " ++ ty.display ++ " [" ++ sepLoop ", " (values.map Operand.display) 0 ++ "]")
  | _, .bytesLiteral ty value =>
      some (ty.display ++ " hex\"" ++ sepLoop "_" (value.map hex2) 0 ++ "\"")
  | _, .structLiteral values =>
      some ("struct \x7b " ++ sepLoop ", " (values.map Operand.display) 0 ++ " \x7d")
  | _, .cast op toTy => some ("(cast " ++ op.display ++ " as " ++ toTy.display ++ ")")
  | _, .bytesCast op toTy => some ("(cast " ++ op.display ++ " as " ++ toTy.display ++ ")")
  | _, .signExt op toTy => some ("(sext " ++ op.display ++ " to " ++ toTy.display ++ ")")
  | _, .zeroExt op toTy => some ("(zext " ++ op.display ++ " to " ++ toTy.display ++ ")")
  | _, .trunc op toTy => some ("(trunc " ++ op.display ++ " to " ++ toTy.display ++ ")")
  | _, .allocDynamicBytes (.ptr t) size none =>
      some ("alloc " ++ t.display ++ "[" ++ size.display ++ "]")
  | _, .allocDynamicBytes (.ptr t) size (some bytes) =>
      some ("alloc " ++ t.display ++ "[" ++ size.display ++ "] \x7b" ++
        sepLoop ", " (bytes.map hex2) 0 ++ "\x7d")
  | _, .getRef op => some ("&" ++ op.display)
  | _, .load op => some ("*" ++ op.display)
  | _, .structMember op member => some (op.display ++ "->" ++ toString member)
  | _, .subscript arr index => some (arr.display ++ "[" ++ index.display ++ "]")
  | _, .advancePointer ptr off => some ("ptr_add(" ++ ptr.display ++ ", " ++ off.display ++ ")")
  | _, .functionArg argNo => some ("arg#" ++ toString argNo)
  | _, .formatString args =>
      some ("fmt_str(" ++
        sepLoop ", "
          (args.map fun sa =>
            if sa.1.display = "" then sa.2.display
            else sa.1.display ++ " " ++ sa.2.display) 0 ++ ")")
  | _, .internalFunctionCfg cfgNo => some ("function#" ++ toString cfgNo)
  | _, .keccak256 args =>
      some ("keccak256(" ++ sepLoop ", " (args.map Operand.display) 0 ++ ")")
  | _, .stringCompare l r => some ("strcmp(" ++ l.display ++ ", " ++ r.display ++ ")")
  | _, .stringConcat l r => some ("strcat(" ++ l.display ++ ", " ++ r.display ++ ")")
  | _, .storageArrayLength arr => some ("storage_arr_len(" ++ arr.display ++ ")")
  | _, .returnData => some "(extern_call_ret_data)"
  | _, .numberLiteral _ value => some (toString value)
  | _, .boolLiteral value => some (toString value)
  | _, .allocDynamicBytes _ _ _ => none

/-- `PhiInput` from `src/lir/lir_type.rs`: an operand paired with the
number of the predecessor block that contributes it. -/
structure PhiInput where
  operand : Operand
  blockNo : Nat

/-- Modelled from the spec: the external call type selector
(`sema::ast::CallTy`, not in the examined sources); regular, delegate or
static, printed lowercase by the tests. -/
inductive CallTy where
  | regular
  | delegate
  | static

/-- Modelled from the spec: call type rendering inside `call_ext [...]`. -/
def CallTy.display : CallTy → String
  | .regular => "regular"
  | .delegate => "delegate"
  | .static => "static"

/-- Modelled from the spec: the instruction variants the verified claims
touch (`insn.rs` is not in the examined sources); field shapes follow the
constructions in `src/tests/ssa_ir_tests/insn_to_string.rs`.  The source
location fields, which printing ignores, are dropped. -/
inductive Insn where
  | set (res : Nat) (expr : Expr)
  | store (dest : Operand) (data : Operand)
  | popStorage (res : Option Nat) (storage : Operand)
  | externalCall (success : Option Nat) (address : Option Operand)
      (accounts : Option Operand) (seeds : Option Operand)
      (payload : Operand) (value : Operand) (gas : Operand)
      (callty : CallTy) (contractFunctionNo : Option Nat)
      (flags : Option Operand)
  | assertFailure (encodedArgs : Option Operand)
  | phi (res : Nat) (vars : List PhiInput)

/-- Modelled from the spec: an optional operand slot of `call_ext`; an
absent field prints as an underscore in its slot, a present one as its
label followed by the operand. -/
def optSlot (label : String) : Option Operand → String
  | none => "_"
  | some op => label ++ op.display

/-- Modelled from the spec: the optional result column; a present result
prints as the variable reference, an equals sign and a space, an absent
one prints nothing. -/
def resPart : Option Nat → String
  | none => ""
  | some r => "%" ++ toString r ++ " = "

/-- Modelled from the spec: the instruction printer (section 6 grammar;
the exact strings are pinned by `src/tests/ssa_ir_tests/insn_to_string.rs`).
The slot of `contract_function_no` is only pinned when the field is
absent (printed as an underscore); the tests never print a present one. -/
def Printer.printInsn : Printer → Insn → Option String
  | p, .set res e => (p.printExpr e).map fun s => "%" ++ toString res ++ " = " ++ s ++ ";"
  | _, .store dest data => some ("store " ++ data.display ++ " to " ++ dest.display ++ ";")
  | _, .popStorage res storage => some (resPart res ++ "pop_storage " ++ storage.display ++ ";")
  | _, .externalCall success address accounts seeds payload value gas callty cfn flags =>
      some (resPart success ++ "call_ext [" ++ callty.display ++ "] " ++
        optSlot "address:" address ++
        " payload:" ++ payload.display ++
        " value:" ++ value.display ++
        " gas:" ++ gas.display ++
        " " ++ optSlot "accounts:" accounts ++
        " " ++ optSlot "seeds:" seeds ++
        " " ++ (match cfn with
                | none => "_"
                | some n => "cfn:" ++ toString n) ++
        " " ++ optSlot "flags:" flags ++ ";")
  | _, .assertFailure (some op) => some ("assert_failure " ++ op.display ++ ";")
  | _, .assertFailure none => some "assert_failure;"
  | _, .phi res vars =>
      some ("%" ++ toString res ++ " = phi " ++
        sepLoop ", "
          (vars.map fun v => "[" ++ v.operand.display ++ ", block#" ++ toString v.blockNo ++ "]")
          0 ++ ";")

/-- The empty variable table of the tests (`IndexMap::new()`, next id 0). -/
def testVartable : Vartable := ⟨[], 0⟩

/-- The printer the tests build over the empty variable table. -/
def testPrinter : Printer := ⟨testVartable⟩

example :
    testPrinter.printInsn (.store (.id 0) (.numberLiteral (.uint 8) 1)) =
      some "store uint8(1) to %0;" := by rfl

example :
    testPrinter.printInsn
      (.externalCall (some 1) (some (.id 2)) (some (.id 3)) (some (.id 4))
        (.id 5) (.id 6) (.numberLiteral (.uint 8) 120) .regular none (some (.id 7))) =
      some "%1 = call_ext [regular] address:%2 payload:%5 value:%6 gas:uint8(120) accounts:%3 seeds:%4 _ flags:%7;" := by rfl

example :
    testPrinter.printExpr (.bytesLiteral (.bytes 4) [65, 66, 67, 68]) =
      some "bytes4 hex\"41_42_43_44\"" := by rfl

/-- Claim C2: for every `Type` value the printer follows the structural
grammar of the spec: `bool`, `int<w>`, `uint<w>`, `bytes<w>` with the width
appended, `ptr<T>`, `storage_ptr<T>` and `const_storage_ptr<T>`, array
dimensions appended to the element type in list order as `[n]`, `[]`,
`[?]`, `struct.<tag>`, `slice<T>`, `fn(P1, P2)` with ` -> (R1, R2)` or
` -> ()` when the returns are empty, and `mapping<K -> V>`. -/
theorem ty_display_follows_spec_grammar :
    Ty.display .bool = "bool"
    ∧ (∀ w, Ty.display (.int w) = "int" ++ toString w)
    ∧ (∀ w, Ty.display (.uint w) = "uint" ++ toString w)
    ∧ (∀ w, Ty.display (.bytes w) = "bytes" ++ toString w)
    ∧ (∀ t, Ty.display (.ptr t) = "ptr<" ++ t.display ++ ">")
    ∧ (∀ t, Ty.display (.storagePtr false t) = "storage_ptr<" ++ t.display ++ ">")
    ∧ (∀ t, Ty.display (.storagePtr true t) = "const_storage_ptr<" ++ t.display ++ ">")
    ∧ (∀ t dims, Ty.display (.array t dims) =
        t.display ++ String.join (dims.map ArrayLength.display))
    ∧ (∀ tag, Ty.display (.struct tag) = "struct." ++ tag.display)
    ∧ (∀ t, Ty.display (.slice t) = "slice<" ++ t.display ++ ">")
    ∧ (∀ ps rs, Ty.display (.function ps rs) =
        "fn(" ++ sepBy ", " (ps.map Ty.display) ++ ")" ++
          (if rs.isEmpty then " -> ()"
           else " -> (" ++ sepBy ", " (rs.map Ty.display) ++ ")"))
    ∧ (∀ k v, Ty.display (.mapping k v) =
        "mapping<" ++ k.display ++ " -> " ++ v.display ++ ">") := by
  refine ⟨rfl, fun w => rfl, fun w => rfl, fun w => rfl, fun t => rfl,
    fun t => rfl, fun t => rfl, fun t dims => rfl, fun tag => rfl, fun t => rfl,
    fun ps rs => ?_, fun k v => rfl⟩
  cases rs with
  | nil => simp [Ty.display, Ty.displayList_eq_sepBy]
  | cons r rest => simp [Ty.display, Ty.displayList_eq_sepBy]

/-- Claim C3: the `Set` instruction of the literal example prints exactly
`%122 = uint8(1) (of)* %121;`, and the overflowing multiply renders
differently from the plain one. -/
theorem set_overflowing_mul_prints_of_star :
    testPrinter.printInsn
        (.set 122 (.binaryExpr (.mul true) (.numberLiteral (.uint 8) 1) (.id 121))) =
      some "%122 = uint8(1) (of)* %121;"
    ∧ testPrinter.printInsn
        (.set 122 (.binaryExpr (.mul false) (.numberLiteral (.uint 8) 1) (.id 121))) =
      some "%122 = uint8(1) * %121;"
    ∧ ("%122 = uint8(1) (of)* %121;" : String) ≠ "%122 = uint8(1) * %121;" :=
  ⟨rfl, rfl, by decide⟩

/-- Claim C4: a `Phi` instruction prints its result, the keyword `phi`,
and its inputs as bracketed operand and block pairs, comma separated, in
exactly construction order; the literal example of the spec holds. -/
theorem phi_prints_inputs_in_order :
    (∀ (p : Printer) (res : Nat) (vars : List PhiInput),
      p.printInsn (.phi res vars) =
        some ("%" ++ toString res ++ " = phi " ++
          sepBy ", "
            (vars.map fun v =>
              "[" ++ v.operand.display ++ ", block#" ++ toString v.blockNo ++ "]") ++ ";"))
    ∧ testPrinter.printInsn (.phi 12 [⟨.id 1, 13⟩, ⟨.id 2, 14⟩]) =
        some "%12 = phi [%1, block#13], [%2, block#14];" := by
  refine ⟨fun p res vars => ?_, rfl⟩
  simp [Printer.printInsn, sepLoop_zero]

/-- Claim C5: `PopStorage` prints with a leading result column exactly
when the optional result is present; both literal examples of the spec
hold, and in general the present-result text is the absent-result text
with the result column prepended. -/
theorem pop_storage_result_column :
    testPrinter.printInsn (.popStorage (some 123) (.id 3)) = some "%123 = pop_storage %3;"
    ∧ testPrinter.printInsn (.popStorage none (.id 3)) = some "pop_storage %3;"
    ∧ (∀ (p : Printer) (r : Nat) (s : Operand),
        p.printInsn (.popStorage (some r) s) =
          (p.printInsn (.popStorage none s)).map
            fun t => "%" ++ toString r ++ " = " ++ t) := by
  refine ⟨rfl, rfl, fun p r s => ?_⟩
  simp [Printer.printInsn, resPart, String.empty_append, String.append_assoc]
  rw [← String.append_assoc " = " "pop_storage "]
  rfl

/-- Claim C1, counterexample: `AssertFailure` with an absent encoded
argument prints `assert_failure;`, omitting the argument slot entirely
rather than rendering it as an underscore in the position the present
argument occupies (`assert_failure %3;` would become `assert_failure _;`
under the claimed convention). -/
theorem assert_failure_absent_arg_omitted :
    testPrinter.printInsn (.assertFailure (some (.id 3))) = some "assert_failure %3;"
    ∧ testPrinter.printInsn (.assertFailure none) = some "assert_failure;"
    ∧ ("assert_failure;" : String) ≠ "assert_failure _;" :=
  ⟨rfl, rfl, by decide⟩

/-- Claim C1, amended: the underscore-in-slot convention with fixed slot
positions holds for the optional non-result fields of `ExternalCall`
(accounts, seeds, the contract-function slot, flags), as in the two test
renderings; it does not hold for every optional field of every
instruction: `AssertFailure` with an absent encoded argument omits the
slot entirely, and an absent optional result drops the result column
instead of printing an underscore. -/
theorem optional_field_underscore_slots :
    testPrinter.printInsn
        (.externalCall (some 1) (some (.id 2)) (some (.id 3)) (some (.id 4))
          (.id 5) (.id 6) (.numberLiteral (.uint 8) 120) .regular none (some (.id 7))) =
      some "%1 = call_ext [regular] address:%2 payload:%5 value:%6 gas:uint8(120) accounts:%3 seeds:%4 _ flags:%7;"
    ∧ testPrinter.printInsn
        (.externalCall none (some (.id 2)) (some (.id 3)) none
          (.id 5) (.id 6) (.numberLiteral (.uint 8) 120) .static none (some (.id 7))) =
      some "call_ext [static] address:%2 payload:%5 value:%6 gas:uint8(120) accounts:%3 _ _ flags:%7;"
    ∧ testPrinter.printInsn (.assertFailure none) = some "assert_failure;"
    ∧ (∀ (p : Printer) (storage : Operand),
        p.printInsn (.popStorage none storage) =
          some ("pop_storage " ++ storage.display ++ ";")) :=
  ⟨rfl, rfl, rfl, fun _ _ => rfl⟩

/-- Claim C6, counterexample: a `uint8` number literal with value 1,
printed as an expression by `print_expr`, renders as the bare value `1`,
not as `uint8(1)`; the type-mirroring form does not hold wherever the
literal appears. -/
theorem number_literal_expr_prints_bare_value :
    testPrinter.printExpr (.numberLiteral (.uint 8) 1) = some "1"
    ∧ ("1" : String) ≠ "uint8(1)" :=
  ⟨rfl, by decide⟩

/-- Claim C6, amended: a number literal rendered as an operand prints as
its type followed by the parenthesised value (so a `uint8` literal with
value 1 prints `uint8(1)`, as in the store test), but the
`NumberLiteral` arm of `print_expr` prints only the bare value. -/
theorem number_literal_rendering :
    (∀ (ty : Ty) (v : Int),
      Operand.display (.numberLiteral ty v) = ty.display ++ "(" ++ toString v ++ ")")
    ∧ (∀ (p : Printer) (ty : Ty) (v : Int),
        p.printExpr (.numberLiteral ty v) = some (toString v))
    ∧ testPrinter.printInsn (.store (.id 0) (.numberLiteral (.uint 8) 1)) =
        some "store uint8(1) to %0;" :=
  ⟨fun _ _ => rfl, fun _ _ _ => rfl, rfl⟩

/-- Claim C7, counterexample: `AllocDynamicBytes` is a variant of the
expression algebra, yet `print_expr` does not return text for an
`AllocDynamicBytes` whose type is `Bool`: it reaches the catch-all panic
arm, embedded as `none`. -/
theorem alloc_dynamic_bytes_bool_reaches_panic :
    testPrinter.printExpr
      (.allocDynamicBytes .bool (.numberLiteral (.uint 8) 10) none) = none := rfl

/-- The fall-through condition of `print_expr`: exactly the
`AllocDynamicBytes` expressions whose type field is not a `Ptr`. -/
def unsupportedForPrinting : Expr → Bool
  | .allocDynamicBytes (.ptr _) _ _ => false
  | .allocDynamicBytes _ _ _ => true
  | _ => false

/-- Claim C7, amended: `print_expr` returns text for every value of every
variant of the expression algebra except an `AllocDynamicBytes` whose
type is not `Ptr`; exactly those values reach the catch-all panic arm. -/
theorem print_expr_total_except_alloc_non_ptr :
    ∀ (p : Printer) (e : Expr),
      p.printExpr e = none ↔ unsupportedForPrinting e = true := by
  intro p e
  cases e
  case allocDynamicBytes ty size init =>
    cases ty <;> cases init <;> simp [Printer.printExpr, unsupportedForPrinting]
  all_goals simp [Printer.printExpr, unsupportedForPrinting]

/-- Claim C8: printing is deterministic; two invocations of `print_expr`
on the same expression with the same printer state yield the same
output. -/
theorem print_expr_deterministic (p : Printer) (e : Expr) (s₁ s₂ : Option String)
    (h₁ : p.printExpr e = s₁) (h₂ : p.printExpr e = s₂) : s₁ = s₂ :=
  h₁.symm.trans h₂

/-- Claim C8, witness: the determinism theorem applied to a concrete
expression over the test printer. -/
theorem print_expr_deterministic_witness :
    testPrinter.printExpr (.id 7) = some "%7"
    ∧ (some "%7" : Option String) = some "%7" :=
  ⟨rfl, print_expr_deterministic testPrinter (.id 7) (some "%7") (some "%7") rfl rfl⟩

/-- Claim C9: a `BytesCast` prints exactly like a generic `Cast` of the
same operand and target type, namely `(cast <op> as <T>)`; the printed
form does not distinguish the two. -/
theorem bytes_cast_prints_like_cast :
    ∀ (p : Printer) (op : Operand) (toTy : Ty),
      p.printExpr (.bytesCast op toTy) = p.printExpr (.cast op toTy)
      ∧ p.printExpr (.cast op toTy) =
          some ("(cast " ++ op.display ++ " as " ++ toTy.display ++ ")") :=
  fun _ _ _ => ⟨rfl, rfl⟩

/-- Claim C10: for every `AllocDynamicBytes` whose type field is not a
`Ptr`, `print_expr` reaches the panic arm (`none`), even though the same
variant with a `Ptr` type is printable. -/
theorem alloc_dynamic_bytes_requires_ptr (p : Printer) (ty : Ty) (size : Operand)
    (init : Option (List (Fin 256))) (h : ∀ t, ty ≠ Ty.ptr t) :
    p.printExpr (.allocDynamicBytes ty size init) = none
    ∧ (p.printExpr (.allocDynamicBytes (.ptr ty) size init)).isSome = true := by
  constructor
  · cases ty <;> cases init <;> first | rfl | exact absurd rfl (h _)
  · cases init <;> rfl

/-- Claim C10, witness: the theorem applied at a concrete non-pointer
type. -/
theorem alloc_dynamic_bytes_requires_ptr_witness :
    (∀ t, Ty.uint 8 ≠ Ty.ptr t)
    ∧ (testPrinter.printExpr
          (.allocDynamicBytes (.uint 8) (.numberLiteral (.uint 8) 3) none) = none
       ∧ (testPrinter.printExpr
            (.allocDynamicBytes (.ptr (.uint 8)) (.numberLiteral (.uint 8) 3) none)).isSome
          = true) :=
  ⟨fun _ h => Ty.noConfusion h,
   alloc_dynamic_bytes_requires_ptr testPrinter (.uint 8) (.numberLiteral (.uint 8) 3) none
     (fun _ h => Ty.noConfusion h)⟩
